import Mathlib

/-!
# Verification of the Incremental Retrieval & Non-Repeating Sampling Engine

Shallow embedding of the core logic of the Mastodon-Random-Picker repository
(`src/unnamed/part_000`, with `src/app.js` an earlier variant of the same
functions, and `src/unnamed/part_001` the URL/download helpers).

Modelling conventions:
* JS timestamps (`new Date(x).getTime()`) are modelled as `Int` values; a post's
  `created_at` string is represented directly by its parsed timestamp.
* JS `Set` objects (insertion-ordered, duplicate-free) are modelled as
  `List String` with the insertion discipline `insertId`; `Array.from(set)` is
  the identity on this representation and `new Set(array)` is `jsSetOfList`.
* `localStorage` is modelled as an association list from keys to stored
  id arrays (`setItem` replaces an existing key or appends a new entry).
* `Math.floor(Math.random() * len)` is modelled by an arbitrary `Nat`
  parameter reduced `% len`, which ranges over exactly the indices the
  original expression can produce.
* The network is modelled as the stream of page responses the server returns
  to the successive requests of one walk, plus an explicit per-iteration view
  of the `stopRef`/`pausedRef` flags (they are plain shared booleans written
  by `togglePause`/`stopFetch` between suspension points).
* UI-only state fields (`mode`, `showTutorial`, `showFilters`, `fetchType`,
  `customEmojis`, url input, rendering) are omitted: no claim mentions them.
-/

namespace MastodonPicker

/-- Account record (`accounts/lookup` response / `backup.account`);
only the fields the modelled operations read are kept. -/
structure Account where
  id : String
  username : String
  acct : String
  url : String
deriving DecidableEq, Repr

/-- The nested `status.reblog` object (at most one level of nesting);
only the fields the modelled operations read are kept. -/
structure InnerStatus where
  id : String
  created_at : Int
  in_reply_to_id : Option String
deriving DecidableEq, Repr

/-- A status (post) record; `account` is optional because the raw-array
importing path checks `!jsonContent[0].account`. -/
structure Status where
  id : String
  created_at : Int
  in_reply_to_id : Option String
  reblog : Option InnerStatus
  account : Option Account
deriving DecidableEq, Repr

/-- `fetchConfig.mode`: `'all' | 'limit_count' | 'limit_date'`. -/
inductive FetchMode where
  | all
  | limit_count
  | limit_date
deriving DecidableEq, Repr

/-- The fetch type argument of `executeFetch`: `'initial' | 'older' | 'newer'`. -/
inductive FetchType where
  | initial
  | older
  | newer
deriving DecidableEq, Repr

/-- `state.fetchConfig`. -/
structure FetchConfig where
  excludeReplies : Bool
  excludeReblogs : Bool
  mode : FetchMode
  limitCount : Nat
  limitDate : Int
deriving DecidableEq, Repr

/-- `state.displayFilter`; the empty-string dates (`''`, falsy) are `none`. -/
structure DisplayFilter where
  startDate : Option Int
  endDate : Option Int
  showReplies : Bool
  showReblogs : Bool
deriving DecidableEq, Repr

/-- The persistent key-value store (`localStorage`), restricted to the JSON
id-arrays this engine writes under `seen_statuses_<accountId>` keys. -/
abbrev Store := List (String × List String)

/-- `localStorage.getItem`. -/
def getItem (store : Store) (key : String) : Option (List String) :=
  (store.find? (fun p => p.1 = key)).map (fun p => p.2)

/-- `localStorage.setItem`: overwrite the entry for `key`, or append one. -/
def setItem (store : Store) (key : String) (v : List String) : Store :=
  if store.any (fun p => p.1 = key) then
    store.map (fun p => if p.1 = key then (key, v) else p)
  else
    store ++ [(key, v)]

/-- JS `Set.prototype.add` on the insertion-ordered list representation:
adding an element already present is a no-op, otherwise it is appended. -/
def insertId (x : String) (l : List String) : List String :=
  if x ∈ l then l else l ++ [x]

/-- JS `new Set(array)`: insert the elements in order (keeps first copies). -/
def jsSetOfList (l : List String) : List String :=
  l.foldl (fun acc x => insertId x acc) []

/-- The session state owned by the controller (`state` in the source), with
the persistent store threaded through explicitly. -/
structure AppState where
  currentAccount : Option Account
  allStatuses : List Status
  currentStatus : Option Status
  viewedIds : List String
  displayFilter : DisplayFilter
  error : Option String
  loading : Bool
  store : Store
deriving DecidableEq, Repr

/-- `saveHistory(accountId, ids)`:
`localStorage.setItem('seen_statuses_' + accountId, JSON.stringify(Array.from(ids)))`. -/
def saveHistory (store : Store) (accountId : String) (ids : List String) : Store :=
  setItem store ("seen_statuses_" ++ accountId) ids

/-- `loadHistory(accountId)`: read the stored array and rebuild the set
(`new Set(JSON.parse(saved))`), or the empty set if nothing is stored. -/
def loadHistory (st : AppState) (accountId : String) : AppState :=
  match getItem st.store ("seen_statuses_" ++ accountId) with
  | some saved => { st with viewedIds := jsSetOfList saved }
  | none => { st with viewedIds := [] }

/-- The display date used by the filters: for a reblog, the boosted post's
`created_at`, otherwise the post's own (`s.reblog ? s.reblog.created_at :
s.created_at`). -/
def effectiveCreatedAt (s : Status) : Int :=
  match s.reblog with
  | some r => r.created_at
  | none => s.created_at

/-- Step (1) of `pickRandomStatus` (part_000 lines 1120–1156): the display
filter applied to `state.allStatuses` — replies (through the effective
record), reblogs, start date, end date (inclusive through end of day:
`< end + 86400000`). -/
def displayPool (st : AppState) : List Status :=
  let pool := st.allStatuses
  let pool :=
    if !st.displayFilter.showReplies then
      pool.filter (fun s =>
        match s.reblog with
        | some r => r.in_reply_to_id = none
        | none => s.in_reply_to_id = none)
    else pool
  let pool :=
    if !st.displayFilter.showReblogs then
      pool.filter (fun s => s.reblog = none)
    else pool
  let pool :=
    match st.displayFilter.startDate with
    | some start => pool.filter (fun s => start ≤ effectiveCreatedAt s)
    | none => pool
  let pool :=
    match st.displayFilter.endDate with
    | some e => pool.filter (fun s => effectiveCreatedAt s < e + 86400000)
    | none => pool
  pool

/-- Step (2) of `pickRandomStatus` (line 1159): the filter-passing posts not
yet in the viewed set (`pool.filter(s => !state.viewedIds.has(s.id))`). -/
def availableStatuses (st : AppState) : List Status :=
  (displayPool st).filter (fun s => !decide (s.id ∈ st.viewedIds))

/-- Outcome of one `pickRandomStatus` call: the silent early return, the
two user-facing signals, or a successful pick. -/
inductive PickOutcome where
  | noOp
  | emptyPool
  | exhausted
  | picked (s : Status)
deriving DecidableEq, Repr

/-- `pickRandomStatus` (part_000 lines 1117–1183). `rand` models the
`Math.random()` draw; the selected index is `rand % availableStatuses.length`.
The `Exhausted` branch itself mutates nothing: the confirm-dialog reset it
offers is the separate `clearHistory` operation, triggered by the user. -/
def pickRandomStatus (st : AppState) (rand : Nat) : PickOutcome × AppState :=
  match st.currentAccount with
  | none => (.noOp, st)
  | some acct =>
    if st.allStatuses = [] then (.noOp, st)
    else
      let pool := displayPool st
      let avail := availableStatuses st
      if pool = [] then (.emptyPool, st)
      else
        if h : avail = [] then (.exhausted, st)
        else
          let selected := avail.get
            ⟨rand % avail.length, Nat.mod_lt rand (List.length_pos.mpr h)⟩
          let newViewedIds := insertId selected.id st.viewedIds
          (.picked selected,
            { st with
                currentStatus := some selected,
                viewedIds := newViewedIds,
                store := saveHistory st.store acct.id newViewedIds })

/-- A sequence of `pickRandomStatus` calls (one `rand` draw per call), with
no intervening reset; returns the final state and the list of successfully
picked statuses, in order. -/
def pickRun : AppState → List Nat → AppState × List Status
  | st, [] => (st, [])
  | st, i :: is =>
    let r := pickRandomStatus st i
    let rest := pickRun r.2 is
    match r.1 with
    | .picked s => (rest.1, s :: rest.2)
    | _ => (rest.1, rest.2)

/-- Result of one walk of the cursor-pagination loop in `executeFetch`:
the in-memory collection, `sessionCollectedCount`, and the number of page
requests issued. -/
structure WalkResult where
  allStatuses : List Status
  sessionCollectedCount : Nat
  requestCount : Nat
deriving DecidableEq, Repr

/-- The `while (keepFetching)` loop of `executeFetch` (part_000 lines
529–640). `flags iter` is the `(stopRef, pausedRef)` pair observed at the
top of iteration `iter` (the flags are plain shared booleans written by
`stopFetch`/`togglePause` while the loop is suspended); `responses` is the
stream of page bodies the server returns to the successive requests of this
walk; the fuel argument bounds the observation window (the real loop can
poll a held pause flag forever). One iteration: check stop, check pause
(sleep and re-check), issue the request, stop on an empty page, apply the
date truncation (`limit_date`, non-`newer` only: filter to
`created_at >= limitDate` and stop when the page's last item is older),
merge (prepend for `newer`, append otherwise), apply the count stop
(`limit_count`, `initial` only: stop once the session count reaches the
limit), and for `newer` stop unconditionally (both branches of the
`batch.length < 40` test set `keepFetching = false`). In the non-truncated
path the page is non-empty, so the `filteredBatch.length > 0` merge guard
is dropped there. -/
def executeFetchLoop (cfg : FetchConfig) (ty : FetchType) (flags : Nat → Bool × Bool) :
    Nat → Nat → List (List Status) → List Status → Nat → Nat → WalkResult
  | 0, _, _, acc, sc, rc => ⟨acc, sc, rc⟩
  | fuel + 1, iter, responses, acc, sc, rc =>
    if (flags iter).1 then ⟨acc, sc, rc⟩
    else if (flags iter).2 then
      executeFetchLoop cfg ty flags fuel (iter + 1) responses acc sc rc
    else
      match responses with
      | [] => ⟨acc, sc, rc⟩
      | batch :: rest =>
        match batch with
        | [] => ⟨acc, sc, rc + 1⟩
        | b0 :: bs =>
          let lastTime := ((b0 :: bs).getLast (List.cons_ne_nil b0 bs)).created_at
          if cfg.mode = FetchMode.limit_date ∧ ty ≠ FetchType.newer ∧
              lastTime < cfg.limitDate then
            let filteredBatch := (b0 :: bs).filter
              (fun s => cfg.limitDate ≤ s.created_at)
            let acc' :=
              if filteredBatch = [] then acc
              else if ty = FetchType.newer then filteredBatch ++ acc
              else acc ++ filteredBatch
            let sc' := if filteredBatch = [] then sc else sc + filteredBatch.length
            ⟨acc', sc', rc + 1⟩
          else
            let acc' :=
              if ty = FetchType.newer then (b0 :: bs) ++ acc else acc ++ (b0 :: bs)
            let sc' := sc + (b0 :: bs).length
            if cfg.mode = FetchMode.limit_count ∧ ty = FetchType.initial ∧
                cfg.limitCount ≤ sc' then
              ⟨acc', sc', rc + 1⟩
            else if ty = FetchType.newer then
              ⟨acc', sc', rc + 1⟩
            else
              executeFetchLoop cfg ty flags fuel (iter + 1) rest acc' sc' (rc + 1)

/-- The Backup-with-progress snapshot built by `handleDownloadBackup`
(part_000 lines 1260–1271). -/
structure Backup where
  type : String
  timestamp : String
  account : Option Account
  statuses : List Status
  viewedIds : List String
deriving DecidableEq, Repr

/-- `handleDownloadBackup`: export the current session as a
Backup-with-progress snapshot (only when a current account exists and the
collection is non-empty; otherwise the handler does nothing). -/
def handleDownloadBackup (st : AppState) (timestamp : String) : Option Backup :=
  match st.currentAccount with
  | some _ =>
    if st.allStatuses = [] then none
    else
      some
        { type := "mastodon-picker-backup"
          timestamp := timestamp
          account := st.currentAccount
          statuses := st.allStatuses
          viewedIds := st.viewedIds }
  | none => none

/-- The parsed JSON content handed to the single-file import path, as the
tagged union the dynamic shape discrimination resolves it to. The
ActivityPub outbox variant carries the output of `parseActivityPubOutbox`,
which the spec treats as an external pure importer. `other` is any
unrecognized shape. -/
inductive Snapshot where
  | outbox (statuses : List Status) (account : Account)
  | rawArray (statuses : List Status)
  | backupLike (b : Backup)
  | other
deriving DecidableEq, Repr

/-- The shape discrimination of the single-file import (part_000 lines
1049–1073): ActivityPub outbox, raw status array (validated on its first
element: a falsy `id` — the empty string — or missing `account` is
rejected), Backup-with-progress (recognized by its `type` marker), or the
unrecognized-format error. Returns `(statuses, account, restoredIds)`. -/
def importParse : Snapshot → Except String (List Status × Option Account × Option (List String))
  | .outbox statuses account => .ok (statuses, some account, none)
  | .rawArray statuses =>
    match statuses with
    | [] => .error "无效的 JSON 数据格式。"
    | s :: _ =>
      if s.id = "" ∨ s.account = none then .error "无效的 JSON 数据格式。"
      else .ok (statuses, s.account, none)
  | .backupLike b =>
    if b.type = "mastodon-picker-backup" then .ok (b.statuses, b.account, some b.viewedIds)
    else .error "无法识别的文件格式。"
  | .other => .error "无法识别的文件格式。"

/-- `handleFileUpload`, single-JSON-file path (part_000 lines 940–1114):
the handler first clears `currentStatus`, `currentAccount` and
`allStatuses` (lines 944–948), then parses; on failure it records the error
message, on success it installs the imported account and statuses and
either restores the backup's viewed ids (persisting them) or loads the
stored history for the account. -/
def handleFileUpload (st : AppState) (snap : Snapshot) : AppState :=
  let st0 : AppState :=
    { st with
        loading := true, error := none, currentStatus := none,
        currentAccount := none, allStatuses := [] }
  match importParse snap with
  | .error msg => { st0 with error := some msg, loading := false }
  | .ok (statuses, account, restoredIds) =>
    match account with
    | none => { st0 with error := some "无法从文件中解析用户信息。", loading := false }
    | some a =>
      let st1 := { st0 with currentAccount := some a, allStatuses := statuses }
      let st2 :=
        match restoredIds with
        | some ids =>
          let v := jsSetOfList ids
          { st1 with viewedIds := v, store := saveHistory st1.store a.id v }
        | none => loadHistory st1 a.id
      { st2 with loading := false }

/-! ## Concrete sample data used by witnesses and counterexamples -/

/-- A sample account. -/
def sampleAccount : Account :=
  { id := "A1", username := "meomo", acct := "meomo@alive.bar",
    url := "https://alive.bar/@meomo" }

/-- A sample plain status (no reblog, not a reply). -/
def mkStatus (i : String) (t : Int) : Status :=
  { id := i, created_at := t, in_reply_to_id := none, reblog := none,
    account := some sampleAccount }

/-- The permissive display filter (the source's initial `displayFilter`). -/
def sampleFilter : DisplayFilter :=
  { startDate := none, endDate := none, showReplies := true, showReblogs := true }

/-- A fetch configuration in unbounded (`'all'`) mode. -/
def cfgAll : FetchConfig :=
  { excludeReplies := true, excludeReblogs := true, mode := FetchMode.all,
    limitCount := 100, limitDate := 0 }

/-- A flag schedule on which neither stop nor pause is ever observed. -/
def flagsQuiet : Nat → Bool × Bool := fun _ => (false, false)

/-! ## Claims about the cursor-pagination walker -/

/-- Unfolding lemma: one iteration of the `while (keepFetching)` loop. -/
theorem executeFetchLoop_succ (cfg : FetchConfig) (ty : FetchType)
    (flags : Nat → Bool × Bool) (fuel iter : Nat)
    (responses : List (List Status)) (acc : List Status) (sc rc : Nat) :
    executeFetchLoop cfg ty flags (fuel + 1) iter responses acc sc rc =
      if (flags iter).1 then ⟨acc, sc, rc⟩
      else if (flags iter).2 then
        executeFetchLoop cfg ty flags fuel (iter + 1) responses acc sc rc
      else
        match responses with
        | [] => ⟨acc, sc, rc⟩
        | batch :: rest =>
          match batch with
          | [] => ⟨acc, sc, rc + 1⟩
          | b0 :: bs =>
            let lastTime := ((b0 :: bs).getLast (List.cons_ne_nil b0 bs)).created_at
            if cfg.mode = FetchMode.limit_date ∧ ty ≠ FetchType.newer ∧
                lastTime < cfg.limitDate then
              let filteredBatch := (b0 :: bs).filter
                (fun s => cfg.limitDate ≤ s.created_at)
              let acc' :=
                if filteredBatch = [] then acc
                else if ty = FetchType.newer then filteredBatch ++ acc
                else acc ++ filteredBatch
              let sc' := if filteredBatch = [] then sc else sc + filteredBatch.length
              ⟨acc', sc', rc + 1⟩
            else
              let acc' :=
                if ty = FetchType.newer then (b0 :: bs) ++ acc else acc ++ (b0 :: bs)
              let sc' := sc + (b0 :: bs).length
              if cfg.mode = FetchMode.limit_count ∧ ty = FetchType.initial ∧
                  cfg.limitCount ≤ sc' then
                ⟨acc', sc', rc + 1⟩
              else if ty = FetchType.newer then
                ⟨acc', sc', rc + 1⟩
              else
                executeFetchLoop cfg ty flags fuel (iter + 1) rest acc' sc' (rc + 1) :=
  rfl

/-- **C2, counterexample.** In an `'initial'` walk in unbounded mode, the
server returns a non-empty page of 1 item (fewer than the batch size 40)
and then an empty page: the walk does **not** terminate after merging the
short page — it issues a second page request (request count 2, not 1). -/
theorem short_page_issues_further_request :
    executeFetchLoop cfgAll FetchType.initial flagsQuiet 5 0
        [[mkStatus "1" 10], []] [] 0 0 =
      ⟨[mkStatus "1" 10], 1, 2⟩ ∧ (2 : Nat) ≠ 1 := by
  constructor
  · rfl
  · decide

/-- **C2, amended.** In the `'initial'`/`'older'` directions with no
date/count limit configured, a page never ends the walk by being short:
any non-empty page (of any size) is merged and the walk goes on to issue
the next page request; the walk terminates immediately only on an empty
page. -/
theorem walk_stops_only_on_empty_page (cfg : FetchConfig) (ty : FetchType)
    (flags : Nat → Bool × Bool) (fuel iter : Nat) (batch : List Status)
    (rest : List (List Status)) (acc : List Status) (sc rc : Nat)
    (hm : cfg.mode = FetchMode.all) (hty : ty ≠ FetchType.newer)
    (hflags : flags iter = (false, false)) :
    (batch ≠ [] →
      executeFetchLoop cfg ty flags (fuel + 1) iter (batch :: rest) acc sc rc =
        executeFetchLoop cfg ty flags fuel (iter + 1) rest (acc ++ batch)
          (sc + batch.length) (rc + 1)) ∧
    (batch = [] →
      executeFetchLoop cfg ty flags (fuel + 1) iter (batch :: rest) acc sc rc =
        ⟨acc, sc, rc + 1⟩) := by
  constructor
  · intro hb
    obtain ⟨b0, bs, rfl⟩ := List.exists_cons_of_ne_nil hb
    rw [executeFetchLoop_succ, hflags]
    simp [hm, hty]
  · intro hb
    subst hb
    rw [executeFetchLoop_succ, hflags]
    simp

/-- **C2, amended, witness.** Concrete instance: a 1-item page under the
unbounded `'initial'` walk leads to a further request on the next page. -/
theorem walk_stops_only_on_empty_page_witness :
    cfgAll.mode = FetchMode.all ∧ FetchType.initial ≠ FetchType.newer ∧
    flagsQuiet 0 = (false, false) ∧
    executeFetchLoop cfgAll FetchType.initial flagsQuiet 5 0
        [[mkStatus "1" 10], []] [] 0 0 =
      executeFetchLoop cfgAll FetchType.initial flagsQuiet 4 1 [[]]
        ([] ++ [mkStatus "1" 10]) (0 + [mkStatus "1" 10].length) (0 + 1) :=
  ⟨rfl, by decide, rfl,
    (walk_stops_only_on_empty_page cfgAll FetchType.initial flagsQuiet 4 0
      [mkStatus "1" 10] [[]] [] 0 0 rfl (by decide) rfl).1 (by simp [mkStatus])⟩

/-- **C3.** Date-limited truncation (`limit_date` mode, direction not
`'newer'`): when the fetched page's last (oldest) item is dated before the
cutoff, exactly the items dated at or after the cutoff are merged, and the
walk returns after this page without issuing a further request. -/
theorem date_truncation_halts (cfg : FetchConfig) (ty : FetchType)
    (flags : Nat → Bool × Bool) (fuel iter : Nat) (batch : List Status)
    (rest : List (List Status)) (acc : List Status) (sc rc : Nat)
    (hm : cfg.mode = FetchMode.limit_date) (hty : ty ≠ FetchType.newer)
    (hflags : flags iter = (false, false)) (hb : batch ≠ [])
    (hlast : (batch.getLast hb).created_at < cfg.limitDate) :
    executeFetchLoop cfg ty flags (fuel + 1) iter (batch :: rest) acc sc rc =
      ⟨acc ++ batch.filter (fun s => cfg.limitDate ≤ s.created_at),
        sc + (batch.filter (fun s => cfg.limitDate ≤ s.created_at)).length,
        rc + 1⟩ := by
  obtain ⟨b0, bs, rfl⟩ := List.exists_cons_of_ne_nil hb
  have hlast' : (((b0 :: bs).getLast (List.cons_ne_nil b0 bs)).created_at
      < cfg.limitDate) := hlast
  rw [executeFetchLoop_succ, hflags]
  by_cases hf : (b0 :: bs).filter (fun s => cfg.limitDate ≤ s.created_at) = []
  · simp [hm, hty, hlast', hf]
  · simp [hm, hty, hlast', hf]

/-- **C3, witness.** Concrete instance: cutoff 15, page `[t=20, t=10]` —
only the `t=20` item is merged and the walk stops after one request even
though a further page was available. -/
theorem date_truncation_halts_witness :
    ({ cfgAll with mode := FetchMode.limit_date, limitDate := 15 }).mode
        = FetchMode.limit_date ∧
    (([mkStatus "1" 20, mkStatus "2" 10].getLast (by decide)).created_at
        < (15 : Int)) ∧
    executeFetchLoop { cfgAll with mode := FetchMode.limit_date, limitDate := 15 }
        FetchType.initial flagsQuiet 5 0
        [[mkStatus "1" 20, mkStatus "2" 10], [mkStatus "3" 5]] [] 0 0 =
      ⟨[] ++ ([mkStatus "1" 20, mkStatus "2" 10].filter
          (fun s => (15 : Int) ≤ s.created_at)),
        0 + ([mkStatus "1" 20, mkStatus "2" 10].filter
          (fun s => (15 : Int) ≤ s.created_at)).length, 0 + 1⟩ :=
  ⟨rfl, by decide,
    date_truncation_halts _ FetchType.initial flagsQuiet 4 0
      [mkStatus "1" 20, mkStatus "2" 10] [[mkStatus "3" 5]] [] 0 0 rfl
      (by decide) rfl (by decide) (by decide)⟩

/-- **C4.** A `'newer'` walk issues at most one page request (even when the
page is a full batch), and the fetched items are prepended to the front of
the collection, not appended. -/
theorem newer_fetches_one_page (cfg : FetchConfig) (flags : Nat → Bool × Bool)
    (fuel iter : Nat) (responses : List (List Status)) (acc : List Status)
    (sc rc : Nat) (hflags : flags iter = (false, false)) :
    (executeFetchLoop cfg FetchType.newer flags (fuel + 1) iter responses
        acc sc rc).requestCount ≤ rc + 1 ∧
    (∀ batch rest, responses = batch :: rest →
      executeFetchLoop cfg FetchType.newer flags (fuel + 1) iter responses
          acc sc rc =
        ⟨batch ++ acc, sc + batch.length, rc + 1⟩) := by
  constructor
  · rw [executeFetchLoop_succ, hflags]
    match responses with
    | [] => simp
    | [] :: rest => simp
    | (b0 :: bs) :: rest => simp
  · intro batch rest hresp
    subst hresp
    rw [executeFetchLoop_succ, hflags]
    match batch with
    | [] => simp
    | b0 :: bs => simp

/-- **C4, witness.** Concrete instance: a full 40-item page in `'newer'`
direction is prepended and the walk still makes exactly one request. -/
theorem newer_fetches_one_page_witness :
    flagsQuiet 0 = (false, false) ∧
    (executeFetchLoop cfgAll FetchType.newer flagsQuiet 5 0
        [List.replicate 40 (mkStatus "n" 50), [mkStatus "m" 60]]
        [mkStatus "0" 1] 0 0).requestCount ≤ 0 + 1 ∧
    executeFetchLoop cfgAll FetchType.newer flagsQuiet 5 0
        [List.replicate 40 (mkStatus "n" 50), [mkStatus "m" 60]]
        [mkStatus "0" 1] 0 0 =
      ⟨List.replicate 40 (mkStatus "n" 50) ++ [mkStatus "0" 1],
        0 + (List.replicate 40 (mkStatus "n" 50)).length, 0 + 1⟩ :=
  ⟨rfl,
    (newer_fetches_one_page cfgAll flagsQuiet 4 0 _ [mkStatus "0" 1] 0 0 rfl).1,
    (newer_fetches_one_page cfgAll flagsQuiet 4 0 _ [mkStatus "0" 1] 0 0 rfl).2
      _ _ rfl⟩

/-- **C5.** Cooperative cancellation: if the stop flag is observed at the
top of an iteration — the same check that ends the pause-poll spin — the
walk terminates at once, with the request count unchanged (no further
network request); and a paused iteration issues no request either, only
one poll step after which the flags are re-examined. -/
theorem stop_flag_terminates_walk (cfg : FetchConfig) (ty : FetchType)
    (flags : Nat → Bool × Bool) (fuel iter : Nat)
    (responses : List (List Status)) (acc : List Status) (sc rc : Nat) :
    ((flags iter).1 = true →
      executeFetchLoop cfg ty flags (fuel + 1) iter responses acc sc rc =
        ⟨acc, sc, rc⟩) ∧
    ((flags iter).1 = false → (flags iter).2 = true →
      executeFetchLoop cfg ty flags (fuel + 1) iter responses acc sc rc =
        executeFetchLoop cfg ty flags fuel (iter + 1) responses acc sc rc) := by
  constructor
  · intro hstop
    rw [executeFetchLoop_succ, hstop]
    simp
  · intro hstop hpause
    rw [executeFetchLoop_succ, hstop, hpause]
    simp

/-- **C5, witness.** Concrete instance: stop observed while the walk was
paused (the `stopFetch`-after-`togglePause` scenario) — the walk returns
immediately with zero requests issued even though pages were available. -/
theorem stop_flag_terminates_walk_witness :
    ((fun _ : Nat => (true, false)) 0).1 = true ∧
    executeFetchLoop cfgAll FetchType.initial (fun _ => (true, false)) 5 0
        [[mkStatus "1" 10]] [] 0 0 = ⟨[], 0, 0⟩ :=
  ⟨rfl,
    (stop_flag_terminates_walk cfgAll FetchType.initial (fun _ => (true, false))
      4 0 [[mkStatus "1" 10]] [] 0 0).1 rfl⟩

/-- **C9.** Count-limited `'initial'` walk: the walk stops at the first
page that brings the session count to the configured limit or beyond, and
that whole final page is merged (items beyond the limit are kept, not
discarded); below the limit the walk continues to the next page. -/
theorem count_limit_overshoots (cfg : FetchConfig) (flags : Nat → Bool × Bool)
    (fuel iter : Nat) (batch : List Status) (rest : List (List Status))
    (acc : List Status) (sc rc : Nat)
    (hm : cfg.mode = FetchMode.limit_count)
    (hflags : flags iter = (false, false)) (hb : batch ≠ []) :
    (cfg.limitCount ≤ sc + batch.length →
      executeFetchLoop cfg FetchType.initial flags (fuel + 1) iter
          (batch :: rest) acc sc rc =
        ⟨acc ++ batch, sc + batch.length, rc + 1⟩) ∧
    (sc + batch.length < cfg.limitCount →
      executeFetchLoop cfg FetchType.initial flags (fuel + 1) iter
          (batch :: rest) acc sc rc =
        executeFetchLoop cfg FetchType.initial flags fuel (iter + 1) rest
          (acc ++ batch) (sc + batch.length) (rc + 1)) := by
  obtain ⟨b0, bs, rfl⟩ := List.exists_cons_of_ne_nil hb
  have hlen : (b0 :: bs).length = bs.length + 1 := rfl
  constructor
  · intro hcount
    rw [executeFetchLoop_succ, hflags]
    rw [hlen] at hcount
    simp [hm, hcount]
  · intro hcount
    rw [executeFetchLoop_succ, hflags]
    rw [hlen] at hcount
    simp [hm, Nat.not_le_of_lt hcount]

/-- **C9, witness.** Concrete instance: limit 2, first page has 3 items —
the walk stops after that page keeping all 3 items (overshoot), with no
second request. -/
theorem count_limit_overshoots_witness :
    ({ cfgAll with mode := FetchMode.limit_count, limitCount := 2 }).mode
        = FetchMode.limit_count ∧
    (2 : Nat) ≤ 0 + [mkStatus "1" 20, mkStatus "2" 10, mkStatus "3" 9].length ∧
    executeFetchLoop { cfgAll with mode := FetchMode.limit_count, limitCount := 2 }
        FetchType.initial flagsQuiet 9 0
        [[mkStatus "1" 20, mkStatus "2" 10, mkStatus "3" 9], [mkStatus "4" 5]]
        [] 0 0 =
      ⟨[] ++ [mkStatus "1" 20, mkStatus "2" 10, mkStatus "3" 9],
        0 + [mkStatus "1" 20, mkStatus "2" 10, mkStatus "3" 9].length, 0 + 1⟩ :=
  ⟨rfl, by decide,
    (count_limit_overshoots _ flagsQuiet 8 0
      [mkStatus "1" 20, mkStatus "2" 10, mkStatus "3" 9] [[mkStatus "4" 5]]
      [] 0 0 rfl rfl (by decide)).1 (by decide)⟩

/-- A fresh session: two unviewed posts, permissive filter, empty store. -/
def freshTwoPostState : AppState :=
  { currentAccount := some sampleAccount
    allStatuses := [mkStatus "1" 10, mkStatus "2" 20]
    currentStatus := none
    viewedIds := []
    displayFilter := sampleFilter
    error := none
    loading := false
    store := [] }

/-- A session whose single post has already been viewed. -/
def exhaustedState : AppState :=
  { currentAccount := some sampleAccount
    allStatuses := [mkStatus "1" 10]
    currentStatus := none
    viewedIds := ["1"]
    displayFilter := sampleFilter
    error := none
    loading := false
    store := [] }

/-- A session with no current account (posts present but not loaded into a
session). -/
def noAccountState : AppState :=
  { currentAccount := none
    allStatuses := [mkStatus "1" 10]
    currentStatus := none
    viewedIds := ["x"]
    displayFilter := sampleFilter
    error := none
    loading := false
    store := [("k", ["x"])] }

/-! ## Claims about the random sampler and the viewed set -/

/-- One `pickRandomStatus` call either leaves the state untouched (early
return, `EmptyPool`, `Exhausted`) or successfully picks a status from the
not-yet-viewed pool and appends its id to the viewed set. -/
theorem pick_step (st : AppState) (rand : Nat) :
    ((∀ s, (pickRandomStatus st rand).1 ≠ PickOutcome.picked s) ∧
      (pickRandomStatus st rand).2 = st) ∨
    (∃ s, (pickRandomStatus st rand).1 = PickOutcome.picked s ∧
      s ∈ availableStatuses st ∧ s.id ∉ st.viewedIds ∧
      (pickRandomStatus st rand).2.viewedIds = st.viewedIds ++ [s.id]) := by
  cases hacc : st.currentAccount with
  | none => exact Or.inl ⟨fun s => by simp [pickRandomStatus, hacc], by
      simp [pickRandomStatus, hacc]⟩
  | some acct =>
    by_cases hall : st.allStatuses = []
    · exact Or.inl ⟨fun s => by simp [pickRandomStatus, hacc, hall], by
        simp [pickRandomStatus, hacc, hall]⟩
    · by_cases hpool : displayPool st = []
      · exact Or.inl ⟨fun s => by simp [pickRandomStatus, hacc, hall, hpool], by
          simp [pickRandomStatus, hacc, hall, hpool]⟩
      · by_cases hav : availableStatuses st = []
        · exact Or.inl ⟨fun s => by simp [pickRandomStatus, hacc, hall, hpool, hav], by
            simp [pickRandomStatus, hacc, hall, hpool, hav]⟩
        · right
          refine ⟨(availableStatuses st).get
            ⟨rand % (availableStatuses st).length,
              Nat.mod_lt rand (List.length_pos.mpr hav)⟩, ?_, ?_, ?_, ?_⟩
          · simp [pickRandomStatus, hacc, hall, hpool, hav]
          · exact List.get_mem _ _ _
          · have hmem := List.get_mem (availableStatuses st)
              (rand % (availableStatuses st).length)
              (Nat.mod_lt rand (List.length_pos.mpr hav))
            have hfil := (List.mem_filter.mp hmem).2
            simpa using hfil
          · have hnotin : ((availableStatuses st).get
                ⟨rand % (availableStatuses st).length,
                  Nat.mod_lt rand (List.length_pos.mpr hav)⟩).id ∉ st.viewedIds := by
              have hmem := List.get_mem (availableStatuses st)
                (rand % (availableStatuses st).length)
                (Nat.mod_lt rand (List.length_pos.mpr hav))
              have hfil := (List.mem_filter.mp hmem).2
              simpa using hfil
            simp only [List.get_eq_getElem] at hnotin
            simp [pickRandomStatus, hacc, hall, hpool, hav, insertId, hnotin]

/-- Along any pick run, the final viewed set is the initial one extended,
in order, by the ids of the successfully picked statuses. -/
theorem pickRun_viewedIds_eq (idxs : List Nat) (st : AppState) :
    (pickRun st idxs).1.viewedIds =
      st.viewedIds ++ ((pickRun st idxs).2.map Status.id) := by
  induction idxs generalizing st with
  | nil => simp [pickRun]
  | cons i is ih =>
    rcases pick_step st i with ⟨hnp, hst⟩ | ⟨s, hout, _, _, hview⟩
    · cases hr : (pickRandomStatus st i).1 with
      | picked s => exact absurd hr (hnp s)
      | noOp => simp [pickRun, hr, hst, ih]
      | emptyPool => simp [pickRun, hr, hst, ih]
      | exhausted => simp [pickRun, hr, hst, ih]
    · simp [pickRun, hout, ih, hview]

/-- Along any pick run, a distinct-ids viewed set stays distinct. -/
theorem pickRun_viewedIds_nodup (idxs : List Nat) (st : AppState)
    (h : st.viewedIds.Nodup) : (pickRun st idxs).1.viewedIds.Nodup := by
  induction idxs generalizing st with
  | nil => simpa [pickRun] using h
  | cons i is ih =>
    rcases pick_step st i with ⟨hnp, hst⟩ | ⟨s, hout, _, hnotin, hview⟩
    · cases hr : (pickRandomStatus st i).1 with
      | picked s => exact absurd hr (hnp s)
      | noOp => simp only [pickRun, hr]; rw [hst]; exact ih st h
      | emptyPool => simp only [pickRun, hr]; rw [hst]; exact ih st h
      | exhausted => simp only [pickRun, hr]; rw [hst]; exact ih st h
    · have h' : (pickRandomStatus st i).2.viewedIds.Nodup := by
        rw [hview]
        simp [List.nodup_append, h, hnotin]
      simp only [pickRun, hout]
      exact ih _ h'

/-- No status picked anywhere along a run was in the viewed set the run
started from. -/
theorem pickRun_picks_fresh (idxs : List Nat) (st : AppState) :
    ∀ s ∈ (pickRun st idxs).2, s.id ∉ st.viewedIds := by
  induction idxs generalizing st with
  | nil => simp [pickRun]
  | cons i is ih =>
    rcases pick_step st i with ⟨hnp, hst⟩ | ⟨s, hout, _, hnotin, hview⟩
    · cases hr : (pickRandomStatus st i).1 with
      | picked s => exact absurd hr (hnp s)
      | noOp => simp only [pickRun, hr]; rw [hst]; exact ih st
      | emptyPool => simp only [pickRun, hr]; rw [hst]; exact ih st
      | exhausted => simp only [pickRun, hr]; rw [hst]; exact ih st
    · intro s2 hs2
      simp only [pickRun, hout, List.mem_cons] at hs2
      rcases hs2 with rfl | hs2
      · exact hnotin
      · intro hmem
        exact ih _ s2 hs2 (by rw [hview]; exact List.mem_append_left _ hmem)

/-- **C1.** Starting from an empty (freshly loaded or just-reset) viewed
set, after any sequence of picks containing `k` successful ones and no
reset, the viewed set holds exactly `k` distinct ids — the ids of the `k`
picked posts — and no later pick (before a reset) can ever return a post
whose id is in that set. -/
theorem viewed_set_no_repeat (st : AppState) (idxs : List Nat)
    (h0 : st.viewedIds = []) :
    (pickRun st idxs).1.viewedIds.length = (pickRun st idxs).2.length ∧
    (pickRun st idxs).1.viewedIds.Nodup ∧
    (∀ s ∈ (pickRun st idxs).2, s.id ∈ (pickRun st idxs).1.viewedIds) ∧
    (∀ idxs2, ∀ s2 ∈ (pickRun (pickRun st idxs).1 idxs2).2,
      s2.id ∉ (pickRun st idxs).1.viewedIds) := by
  refine ⟨?_, ?_, ?_, ?_⟩
  · rw [pickRun_viewedIds_eq, h0]
    simp
  · exact pickRun_viewedIds_nodup idxs st (by simp [h0])
  · intro s hs
    rw [pickRun_viewedIds_eq]
    exact List.mem_append_right _ (List.mem_map_of_mem Status.id hs)
  · intro idxs2 s2 hs2
    exact pickRun_picks_fresh idxs2 _ s2 hs2

/-- **C1, witness.** Two picks on a fresh two-post collection: the viewed
set afterwards has exactly the two picked ids and further picks cannot
return them. -/
theorem viewed_set_no_repeat_witness :
    freshTwoPostState.viewedIds = [] ∧
    ((pickRun freshTwoPostState [0, 0]).1.viewedIds.length
        = (pickRun freshTwoPostState [0, 0]).2.length ∧
      (pickRun freshTwoPostState [0, 0]).1.viewedIds.Nodup ∧
      (∀ s ∈ (pickRun freshTwoPostState [0, 0]).2,
        s.id ∈ (pickRun freshTwoPostState [0, 0]).1.viewedIds) ∧
      (∀ idxs2, ∀ s2 ∈ (pickRun (pickRun freshTwoPostState [0, 0]).1 idxs2).2,
        s2.id ∉ (pickRun freshTwoPostState [0, 0]).1.viewedIds)) :=
  ⟨rfl, viewed_set_no_repeat freshTwoPostState [0, 0] rfl⟩

/-- **C8.** On a loaded collection (current account present, collection
non-empty), the sampler signals `EmptyPool` exactly when the
display-filtered pool is empty, signals `Exhausted` exactly when that pool
is non-empty but every post in it is already viewed, and neither signal
mutates the viewed set. -/
theorem sampler_empty_vs_exhausted (st : AppState) (rand : Nat)
    (acct : Account) (hacc : st.currentAccount = some acct)
    (hall : st.allStatuses ≠ []) :
    ((pickRandomStatus st rand).1 = PickOutcome.emptyPool ↔
      displayPool st = []) ∧
    ((pickRandomStatus st rand).1 = PickOutcome.exhausted ↔
      (displayPool st ≠ [] ∧ availableStatuses st = [])) ∧
    (((pickRandomStatus st rand).1 = PickOutcome.emptyPool ∨
      (pickRandomStatus st rand).1 = PickOutcome.exhausted) →
      (pickRandomStatus st rand).2.viewedIds = st.viewedIds) := by
  by_cases hpool : displayPool st = []
  · simp [pickRandomStatus, hacc, hall, hpool]
  · by_cases hav : availableStatuses st = []
    · simp [pickRandomStatus, hacc, hall, hpool, hav]
    · simp [pickRandomStatus, hacc, hall, hpool, hav]

/-- **C8, witness.** One post, already viewed: the sampler signals
`Exhausted` (not `EmptyPool`) and leaves the viewed set alone. -/
theorem sampler_empty_vs_exhausted_witness :
    exhaustedState.currentAccount = some sampleAccount ∧
    exhaustedState.allStatuses ≠ [] ∧
    (((pickRandomStatus exhaustedState 0).1 = PickOutcome.emptyPool ↔
        displayPool exhaustedState = []) ∧
      ((pickRandomStatus exhaustedState 0).1 = PickOutcome.exhausted ↔
        (displayPool exhaustedState ≠ [] ∧
          availableStatuses exhaustedState = [])) ∧
      (((pickRandomStatus exhaustedState 0).1 = PickOutcome.emptyPool ∨
        (pickRandomStatus exhaustedState 0).1 = PickOutcome.exhausted) →
        (pickRandomStatus exhaustedState 0).2.viewedIds
          = exhaustedState.viewedIds)) :=
  ⟨rfl, by decide,
    sampler_empty_vs_exhausted exhaustedState 0 sampleAccount rfl (by decide)⟩

/-- **C10.** A pick with no current account or an empty collection is a
silent no-op: outcome `noOp` and the state — in particular the viewed set,
the displayed post and the persistent store — is returned unchanged. -/
theorem pick_noop_frame (st : AppState) (rand : Nat)
    (h : st.currentAccount = none ∨ st.allStatuses = []) :
    pickRandomStatus st rand = (PickOutcome.noOp, st) ∧
    (pickRandomStatus st rand).2.viewedIds = st.viewedIds ∧
    (pickRandomStatus st rand).2.currentStatus = st.currentStatus ∧
    (pickRandomStatus st rand).2.store = st.store := by
  have heq : pickRandomStatus st rand = (PickOutcome.noOp, st) := by
    rcases h with h | h
    · simp [pickRandomStatus, h]
    · cases hacc : st.currentAccount <;> simp [pickRandomStatus, hacc, h]
  exact ⟨heq, by rw [heq], by rw [heq], by rw [heq]⟩

/-- **C10, witness.** A pick on a state with no current account leaves the
state untouched. -/
theorem pick_noop_frame_witness :
    (noAccountState.currentAccount = none ∨ noAccountState.allStatuses = []) ∧
    pickRandomStatus noAccountState 3 = (PickOutcome.noOp, noAccountState) :=
  ⟨Or.inl rfl, (pick_noop_frame noAccountState 3 (Or.inl rfl)).1⟩

/-! ## Claims about snapshot export and import -/

/-- Folding `insertId` over fresh, duplicate-free elements appends them. -/
theorem foldl_insertId_of_nodup (l : List String) (acc : List String)
    (h : (acc ++ l).Nodup) :
    l.foldl (fun a x => insertId x a) acc = acc ++ l := by
  induction l generalizing acc with
  | nil => simp
  | cons x xs ih =>
    have hx : x ∉ acc := fun hmem =>
      (List.nodup_append.mp h).2.2 hmem (List.mem_cons_self x xs)
    have hins : insertId x acc = acc ++ [x] := by simp [insertId, hx]
    have h' : ((acc ++ [x]) ++ xs).Nodup := by
      rw [← List.append_cons]
      exact h
    calc (x :: xs).foldl (fun a x => insertId x a) acc
        = xs.foldl (fun a x => insertId x a) (acc ++ [x]) := by
          rw [List.foldl_cons, hins]
      _ = (acc ++ [x]) ++ xs := ih (acc ++ [x]) h'
      _ = acc ++ x :: xs := by rw [← List.append_cons]

/-- Rebuilding a JS `Set` from a duplicate-free id array gives the array
back unchanged. -/
theorem jsSetOfList_of_nodup (l : List String) (h : l.Nodup) :
    jsSetOfList l = l := by
  have := foldl_insertId_of_nodup l [] (by simpa using h)
  simpa [jsSetOfList] using this

/-- **C6.** Export/import roundtrip: from any session with a current
account and a non-empty collection (and a duplicate-free viewed set, which
every set written by this engine is), downloading a Backup-with-progress
snapshot and importing it — into any session — restores exactly the
exported `(account, collection, viewedSet)` triple. -/
theorem backup_roundtrip (st st2 : AppState) (ts : String) (a : Account)
    (hacc : st.currentAccount = some a) (hne : st.allStatuses ≠ [])
    (hnd : st.viewedIds.Nodup) :
    ∃ b, handleDownloadBackup st ts = some b ∧
      (handleFileUpload st2 (Snapshot.backupLike b)).currentAccount
          = st.currentAccount ∧
      (handleFileUpload st2 (Snapshot.backupLike b)).allStatuses
          = st.allStatuses ∧
      (handleFileUpload st2 (Snapshot.backupLike b)).viewedIds
          = st.viewedIds := by
  refine ⟨{ type := "mastodon-picker-backup", timestamp := ts,
            account := st.currentAccount, statuses := st.allStatuses,
            viewedIds := st.viewedIds }, ?_, ?_, ?_, ?_⟩
  · simp [handleDownloadBackup, hacc, hne]
  · simp [handleFileUpload, importParse, hacc]
  · simp [handleFileUpload, importParse, hacc]
  · simp [handleFileUpload, importParse, hacc, jsSetOfList_of_nodup _ hnd]

/-- **C6, witness.** Concrete roundtrip: a one-post session with one viewed
id is exported and re-imported into a different session; account,
collection and viewed set come back identical. -/
theorem backup_roundtrip_witness :
    exhaustedState.currentAccount = some sampleAccount ∧
    exhaustedState.allStatuses ≠ [] ∧
    exhaustedState.viewedIds.Nodup ∧
    (∃ b, handleDownloadBackup exhaustedState "2026-10-12" = some b ∧
      (handleFileUpload freshTwoPostState (Snapshot.backupLike b)).currentAccount
          = exhaustedState.currentAccount ∧
      (handleFileUpload freshTwoPostState (Snapshot.backupLike b)).allStatuses
          = exhaustedState.allStatuses ∧
      (handleFileUpload freshTwoPostState (Snapshot.backupLike b)).viewedIds
          = exhaustedState.viewedIds) :=
  ⟨rfl, by decide, by decide,
    backup_roundtrip exhaustedState freshTwoPostState "2026-10-12"
      sampleAccount rfl (by decide) (by decide)⟩

/-- A loaded session, with a displayed post and persisted history, into
which a failing import is attempted. -/
def loadedSessionState : AppState :=
  { currentAccount := some sampleAccount
    allStatuses := [mkStatus "1" 10]
    currentStatus := some (mkStatus "1" 10)
    viewedIds := ["1"]
    displayFilter := sampleFilter
    error := none
    loading := false
    store := [("seen_statuses_A1", ["1"])] }

/-- **C7, counterexample.** Importing an unrecognized snapshot into a
loaded session aborts with an error, but the prior session state is NOT
left unchanged: the current account, the post collection and the displayed
post have all been cleared by the import handler's initial reset. -/
theorem import_error_clears_session :
    (handleFileUpload loadedSessionState Snapshot.other).error
        = some "无法识别的文件格式。" ∧
    (handleFileUpload loadedSessionState Snapshot.other).currentAccount
        ≠ loadedSessionState.currentAccount ∧
    (handleFileUpload loadedSessionState Snapshot.other).allStatuses
        ≠ loadedSessionState.allStatuses ∧
    (handleFileUpload loadedSessionState Snapshot.other).currentStatus
        ≠ loadedSessionState.currentStatus := by
  refine ⟨rfl, ?_, ?_, ?_⟩ <;> decide

/-- **C7, amended.** Importing a snapshot of unrecognized shape aborts with
the error message; the viewed set and the persistent store are left
unchanged, but the current account, the post collection and the displayed
post — cleared when the import began — end up empty rather than restored. -/
theorem import_error_state (st : AppState) (snap : Snapshot) (msg : String)
    (h : importParse snap = Except.error msg) :
    (handleFileUpload st snap).error = some msg ∧
    (handleFileUpload st snap).currentAccount = none ∧
    (handleFileUpload st snap).allStatuses = [] ∧
    (handleFileUpload st snap).currentStatus = none ∧
    (handleFileUpload st snap).viewedIds = st.viewedIds ∧
    (handleFileUpload st snap).store = st.store ∧
    (handleFileUpload st snap).loading = false := by
  simp [handleFileUpload, h]

/-- **C7, amended, witness.** Concrete failing import into a loaded
session: error recorded, viewed set and store intact, session fields
cleared. -/
theorem import_error_state_witness :
    importParse Snapshot.other = Except.error "无法识别的文件格式。" ∧
    ((handleFileUpload loadedSessionState Snapshot.other).error
          = some "无法识别的文件格式。" ∧
      (handleFileUpload loadedSessionState Snapshot.other).currentAccount
          = none ∧
      (handleFileUpload loadedSessionState Snapshot.other).allStatuses = [] ∧
      (handleFileUpload loadedSessionState Snapshot.other).currentStatus
          = none ∧
      (handleFileUpload loadedSessionState Snapshot.other).viewedIds
          = loadedSessionState.viewedIds ∧
      (handleFileUpload loadedSessionState Snapshot.other).store
          = loadedSessionState.store ∧
      (handleFileUpload loadedSessionState Snapshot.other).loading = false) :=
  ⟨rfl, import_error_state loadedSessionState Snapshot.other _ rfl⟩

end MastodonPicker
